import Mathlib

/-
Verification of the omi-stitch submission pipeline: a shallow embedding of the
pieces of src/app/main.py, src/app/email_service.py and src/app/database.py that
the specified properties concern, followed by theorems about them.

Conventions of the embedding:
  * Optional Python strings become Option String; None and "" are both falsy.
  * Money amounts (the budget) are modelled in exact cents; binary
    floating-point rounding of amounts finer than one cent is outside the model.
  * Wall-clock reads are explicit arguments; database and SMTP outcomes are
    explicit oracle arguments; functions that may raise return Option/Except.
  * Database writes are recorded both in an explicit state and as event lists,
    so that ordering claims can be stated.
-/

/-- Python truthiness of an optional string: None and the empty string are falsy. -/
def pyTruthy : Option String → Bool
  | none => false
  | some s => decide (s ≠ "")

/-- Whitespace characters of Python str.split() with no separator (ASCII model). -/
def pyIsSpace (c : Char) : Bool :=
  c == ' ' || c == '\t' || c == '\n' || c == '\r' || c == '\x0b' || c == '\x0c'

/-- Worker for pySplitWs: acc holds the characters of the current token in
    reverse; a token is emitted when a separator or the end is reached. -/
def splitWsAux (acc : List Char) : List Char → List String
  | [] => if acc.isEmpty then [] else [String.mk acc.reverse]
  | c :: rest =>
    if pyIsSpace c then
      (if acc.isEmpty then [] else [String.mk acc.reverse]) ++ splitWsAux [] rest
    else splitWsAux (c :: acc) rest

/-- Python str.split() with no separator: the maximal runs of non-whitespace
    characters, in order; all-whitespace input gives the empty list. -/
def pySplitWs (s : String) : List String :=
  splitWsAux [] s.data

/-- The budget field as the renderer receives it: absent (None), a number (in
    exact cents), or a string. main.py always passes a number or None; the
    renderer itself also accepts strings, which its except-branch passes through. -/
inductive BudgetVal where
  | absent
  | num (cents : Int)
  | str (s : String)
deriving Repr, DecidableEq

/-- Numeric value of a list of decimal digit characters, most significant first. -/
def digitsVal (l : List Char) : Nat :=
  l.foldl (fun a c => a * 10 + (c.toNat - 48)) 0

/-- Rounding of a decimal fraction (its digit characters) to a count of
    hundredths, half to even, as two-place formatting does on an exactly
    represented decimal value. -/
def roundFracCents (frac : List Char) : Nat :=
  let base := digitsVal (frac.take 2) *
    (if frac.length = 0 then 100 else if frac.length = 1 then 10 else 1)
  match frac.drop 2 with
  | [] => base
  | c :: rest =>
    if c.toNat - 48 > 5 then base + 1
    else if c.toNat - 48 < 5 then base
    else if rest.any (fun d => decide (d ≠ '0')) then base + 1
    else if base % 2 = 0 then base else base + 1

/-- Model of Python float() on a plain decimal literal: optional sign, digits,
    optional point and fraction digits, at least one digit overall; the value is
    returned in exact cents. Exponent forms, inf/nan, underscores, surrounding
    whitespace and binary floating-point artefacts are outside the model; such
    strings are treated as unparsable. -/
def pyFloatCents (s : String) : Option Int :=
  let sd : Int × List Char :=
    match s.data with
    | '-' :: t => (-1, t)
    | '+' :: t => (1, t)
    | t => (1, t)
  let ip := sd.2.takeWhile Char.isDigit
  match sd.2.drop ip.length with
  | [] => if ip.isEmpty then none else some (sd.1 * Int.ofNat (digitsVal ip * 100))
  | '.' :: fr =>
    if fr.all Char.isDigit && (!ip.isEmpty || !fr.isEmpty) then
      some (sd.1 * Int.ofNat (digitsVal ip * 100 + roundFracCents fr))
    else none
  | _ => none

/-- Comma grouping of a reversed digit list: a comma after every three digits
    counted from the least significant end, as the comma flag of a Python format
    spec inserts. -/
def group3 : List Char → List Char
  | a :: b :: c :: d :: rest => a :: b :: c :: ',' :: group3 (d :: rest)
  | l => l

/-- Python two-decimal thousands-separated rendering of an exact-cents amount,
    as the format spec ,.2f produces. -/
def formatCommaTwo (cents : Int) : String :=
  let a := cents.natAbs
  let ip := a / 100
  let fr := a % 100
  let ipStr := String.mk ((group3 (Nat.toDigits 10 ip).reverse).reverse)
  (if cents < 0 then "-" else "") ++ ipStr ++ "." ++ (if fr < 10 then "0" else "") ++ toString fr

/-- Lines 322-328 of email_service.py: budget_formatted is None unless the budget
    is truthy; a truthy budget becomes a dollar amount when float() accepts it and
    is passed through str() unchanged otherwise. -/
def budgetFormatted : BudgetVal → Option String
  | .absent => none
  | .num c => if c = 0 then none else some ("$" ++ formatCommaTwo c)
  | .str s =>
    if s = "" then none
    else
      match pyFloatCents s with
      | some c => some ("$" ++ formatCommaTwo c)
      | none => some s

/-- The submission_data dict that main.py lines 242-256 hand to the renderer:
    every entry is an optional string except the budget. contact_email is stored
    in the dict but never read by the renderer. -/
structure SubmissionData where
  contact_name : Option String := none
  contact_email : Option String := none
  title : Option String := none
  logline : Option String := none
  synopsis : Option String := none
  budget : BudgetVal := .absent
  languages : Option String := none
  actor_1 : Option String := none
  actor_2 : Option String := none
  actor_3 : Option String := none
  actor_4 : Option String := none
  actor_5 : Option String := none
  actor_6 : Option String := none
deriving Repr, DecidableEq

/-- Lines 300-301 of email_service.py: the greeting name. A truthy contact name
    is split on whitespace and indexed at 0; none models the IndexError raised
    when the name is non-empty but all whitespace. -/
def firstName (contact_name : Option String) : Option String :=
  if pyTruthy contact_name then (pySplitWs (contact_name.getD "")).head?
  else some "there"

/-- Lines 308-313 of email_service.py: the truthy actor slots in original order. -/
def actorsList (d : SubmissionData) : List String :=
  [d.actor_1, d.actor_2, d.actor_3, d.actor_4, d.actor_5, d.actor_6].filterMap
    fun a => if pyTruthy a then some (a.getD "") else none

/-- Python str.join with the separator between consecutive elements, as
    a comma-space join produces. -/
def joinCommaSpace : List String → String
  | [] => ""
  | [x] => x
  | x :: rest => x ++ ", " ++ joinCommaSpace rest

/-- Line 314 of email_service.py: actors_str is the comma-joined truthy slots,
    or None when no slot is truthy. -/
def actorsStr (d : SubmissionData) : Option String :=
  if actorsList d = [] then none else some (joinCommaSpace (actorsList d))

/-- Lines 316-320 of email_service.py: the subject line. -/
def subjectLine (title : Option String) : String :=
  if pyTruthy title then "We've Received Your Project: " ++ title.getD ""
  else "Your Project Submission Has Been Received"

/-- The instant datetime.now() returns, restricted to the calendar fields such a
    value carries; the renderer reads only the year. -/
structure PyDateTime where
  year : Nat
  month : Nat := 1
  day : Nat := 1
  hour : Nat := 0
  minute : Nat := 0
  second : Nat := 0
deriving Repr, DecidableEq

/-- The substitution data built at email_service.py lines 609-617. -/
structure TemplateData where
  first_name : String
  title : Option String
  logline : Option String
  budget_formatted : Option String
  languages : Option String
  actors_str : Option String
  current_year : Nat
deriving Repr, DecidableEq
def pL01 : String := "OMI GLOBAL PRODUCTIONS\n======================\n\nSUBMISSION RECEIVED\n-------------------\n\n"

def pL02 : String := "Hello "

def pL03 : String := ","

def pL04 : String := "\n\nThank you for sharing your creative vision with us. Your project submission has been successfully received and is now in our review queue.\n\n"

def pL05 : String := "\nYOUR SUBMISSION DETAILS\n-----------------------\nProject Title: "

def pL06 : String := "\n"

def pL07 : String := "Logline: \""

def pL08 : String := "\""

def pL09 : String := "\n"

def pL10 : String := "Budget: "

def pL11 : String := "\n"

def pL12 : String := "Languages: "

def pL13 : String := "\n"

def pL14 : String := "Cast Recommendations"

def pL15 : String := ": "

def pL16 : String := "\n"

def pL17 : String := "\n\nWHAT HAPPENS NEXT?\n------------------\n1. Our creative team reviews your submission\n2. We evaluate alignment with our creative vision\n3. You'll hear from us within 5-7 business days\n\nHave questions? Simply reply to this email and our team will be happy to assist you.\n\n---\n\nOMI GLOBAL PRODUCTIONS\nStorytelling | Wellness | Sustainability\n\n(c) "

def pL18 : String := " OMI Global Productions. All rights reserved.\nThis is a transactional email regarding your project submission."


/-- The plain-text body of the confirmation email (email_service.py lines 572-606),
    rendered with default Jinja2 semantics: a tag is replaced by nothing, the text
    around it stays, an if-block whose guard is falsy contributes nothing. -/
def plainBody (td : TemplateData) : String :=
  pL01 ++
  (pL02 ++
  (td.first_name ++
  (pL03 ++
  (pL04 ++
  ((if pyTruthy td.title then
      pL05 ++
      (td.title.getD "" ++
      (pL06 ++
      ((if pyTruthy td.logline then
          pL07 ++
          (td.logline.getD "" ++
          (pL08))
        else "") ++
      (pL09 ++
      ((if pyTruthy td.budget_formatted then
          pL10 ++
          (td.budget_formatted.getD "")
        else "") ++
      (pL11 ++
      ((if pyTruthy td.languages then
          pL12 ++
          (td.languages.getD "")
        else "") ++
      (pL13 ++
      ((if pyTruthy td.actors_str then
          pL14 ++
          (pL15 ++
          (td.actors_str.getD ""))
        else "") ++
      (pL16))))))))))
    else "") ++
  (pL17 ++
  (toString td.current_year ++
  (pL18))))))))

def hL01 : String := "<!DOCTYPE html>\n<html lang=\"en\">\n<head>\n    <meta charset=\"UTF-8\">\n    <meta name=\"viewport\" content=\"width=device-width, initial-scale=1.0\">\n    <meta http-equiv=\"X-UA-Compatible\" content=\"IE=edge\">\n    <title>Project Submission Confirmation</title>\n    <!--[if mso]>\n    <noscript>\n        <xml>\n            <o:OfficeDocumentSettings>\n                <o:PixelsPerInch>96</o:PixelsPerInch>\n            </o:OfficeDocumentSettings>\n        </xml>\n    </noscript>\n    <![endif]-->\n</head>\n<body style=\"margin: 0; padding: 0; font-family: 'Segoe UI', Tahoma, Geneva, Verdana, sans-serif; background-color: #f6f8f6; -webkit-font-smoothing: antialiased;\">\n    <!-- Wrapper Table -->\n    <table role=\"presentation\" width=\"100%\" cellpadding=\"0\" cellspacing=\"0\" style=\"background-color: #f6f8f6;\">\n        <tr>\n            <td align=\"center\" style=\"padding: 40px 20px;\">\n                \n"

def hL02 : String := "                <!-- Main Content Card -->\n                <table role=\"presentation\" width=\"600\" cellpadding=\"0\" cellspacing=\"0\" style=\"max-width: 600px; width: 100%; background-color: #ffffff; border-radius: 16px; overflow: hidden; box-shadow: 0 4px 24px rgba(0,0,0,0.08);\">\n                    \n                    <!-- Header with Brand -->\n                    <tr>\n                        <td style=\"background: linear-gradient(135deg, #112116 0%, #1a2f20 100%); padding: 40px 40px 30px; text-align: center;\">\n                            <!-- Logo Circle -->\n                            <table role=\"presentation\" cellpadding=\"0\" cellspacing=\"0\" style=\"margin: 0 auto 20px;\">\n                                <tr>\n"

def hL03 : String := "                                    <td style=\"width: 80px; height: 80px; background: linear-gradient(135deg, #B4941E 0%, #d4b42e 100%); border-radius: 50%; text-align: center; vertical-align: middle;\">\n                                        <span style=\"font-size: 36px; font-weight: 700; color: #112116; line-height: 80px;\">O</span>\n                                    </td>\n                                </tr>\n                            </table>\n                            <h1 style=\"margin: 0; color: #B4941E; font-size: 28px; font-weight: 700; letter-spacing: 2px;\">OMI GLOBAL</h1>\n                            <p style=\"margin: 8px 0 0; color: rgba(255,255,255,0.7); font-size: 13px; letter-spacing: 3px; text-transform: uppercase;\">PRODUCTIONS</p>\n                        </td>\n                    </tr>\n                    \n                    <!-- Success Badge -->\n"

def hL04 : String := "                    <tr>\n                        <td style=\"padding: 30px 40px 0; text-align: center;\">\n                            <table role=\"presentation\" cellpadding=\"0\" cellspacing=\"0\" style=\"margin: 0 auto;\">\n                                <tr>\n                                    <td style=\"background-color: #e8f5e9; border-radius: 30px; padding: 10px 24px;\">\n                                        <span style=\"color: #2e7d32; font-size: 14px; font-weight: 600;\">&#10003; Submission Received</span>\n                                    </td>\n                                </tr>\n                            </table>\n                        </td>\n                    </tr>\n                    \n                    <!-- Greeting -->\n                    <tr>\n                        <td style=\"padding: 30px 40px 10px; text-align: center;\">\n"

def hL05 : String := "                            <h2 style=\"margin: 0; color: #112116; font-size: 24px; font-weight: 600;\">"

def hL06 : String := "Hello "

def hL07 : String := ","

def hL08 : String := "</h2>\n                        </td>\n                    </tr>\n                    \n                    <!-- Message -->\n                    <tr>\n                        <td style=\"padding: 10px 40px 30px;\">\n                            <p style=\"margin: 0; color: #4a5568; font-size: 16px; line-height: 26px; text-align: center;\">\n                                Thank you for sharing your creative vision with us. Your project submission has been successfully received and is now in our review queue.\n                            </p>\n                        </td>\n                    </tr>\n                    \n                    "

def hL09 : String := "\n                    <!-- Project Details Section -->\n                    <tr>\n                        <td style=\"padding: 0 40px 30px;\">\n                            <table role=\"presentation\" width=\"100%\" cellpadding=\"0\" cellspacing=\"0\" style=\"background: linear-gradient(135deg, #fafbfa 0%, #f0f4f0 100%); border-radius: 12px; border: 1px solid #e2e8f0;\">\n                                \n                                <!-- Section Header -->\n                                <tr>\n                                    <td style=\"padding: 20px 24px 15px; border-bottom: 1px solid #e2e8f0;\">\n                                        <h3 style=\"margin: 0; color: #112116; font-size: 16px; font-weight: 600; text-transform: uppercase; letter-spacing: 1px;\">\n                                            <span style=\"color: #B4941E;\">&#9670;</span> Your Submission\n"

def hL10 : String := "                                        </h3>\n                                    </td>\n                                </tr>\n                                \n                                <!-- Project Title -->\n                                <tr>\n                                    <td style=\"padding: 20px 24px 0;\">\n                                        <p style=\"margin: 0 0 6px; color: #718096; font-size: 12px; text-transform: uppercase; letter-spacing: 1px;\">Project Title</p>\n                                        <p style=\"margin: 0; color: #112116; font-size: 20px; font-weight: 600;\">"

def hL11 : String := "</p>\n                                    </td>\n                                </tr>\n                                \n                                "

def hL12 : String := "\n                                <!-- Logline -->\n                                <tr>\n                                    <td style=\"padding: 20px 24px 0;\">\n                                        <p style=\"margin: 0 0 6px; color: #718096; font-size: 12px; text-transform: uppercase; letter-spacing: 1px;\">Logline</p>\n                                        <p style=\"margin: 0; color: #4a5568; font-size: 15px; font-style: italic; line-height: 24px;\">\""

def hL13 : String := "\"</p>\n                                    </td>\n                                </tr>\n                                "

def hL14 : String := "\n                                \n                                <!-- Details Grid -->\n                                <tr>\n                                    <td style=\"padding: 20px 24px;\">\n                                        <table role=\"presentation\" width=\"100%\" cellpadding=\"0\" cellspacing=\"0\">\n                                            <tr>\n                                                "

def hL15 : String := "\n                                                <td style=\"width: 50%; vertical-align: top; padding-right: 10px;\">\n                                                    <p style=\"margin: 0 0 4px; color: #718096; font-size: 12px; text-transform: uppercase; letter-spacing: 1px;\">Budget</p>\n                                                    <p style=\"margin: 0; color: #112116; font-size: 16px; font-weight: 600;\">"

def hL16 : String := "</p>\n                                                </td>\n                                                "

def hL17 : String := "\n                                                "

def hL18 : String := "\n                                                <td style=\"width: 50%; vertical-align: top; padding-left: 10px;\">\n                                                    <p style=\"margin: 0 0 4px; color: #718096; font-size: 12px; text-transform: uppercase; letter-spacing: 1px;\">Languages</p>\n                                                    <p style=\"margin: 0; color: #112116; font-size: 16px; font-weight: 600;\">"

def hL19 : String := "</p>\n                                                </td>\n                                                "

def hL20 : String := "\n                                            </tr>\n                                        </table>\n                                    </td>\n                                </tr>\n                                \n                                "

def hL21 : String := "\n                                <!-- "

def hL22 : String := "Cast Recommendations"

def hL23 : String := " -->\n                                <tr>\n                                    <td style=\"padding: 0 24px 20px;\">\n                                        <p style=\"margin: 0 0 6px; color: #718096; font-size: 12px; text-transform: uppercase; letter-spacing: 1px;\">"

def hL24 : String := "Cast Recommendations"

def hL25 : String := "</p>\n                                        <p style=\"margin: 0; color: #4a5568; font-size: 14px;\">"

def hL26 : String := "</p>\n                                    </td>\n                                </tr>\n                                "

def hL27 : String := "\n                                \n                            </table>\n                        </td>\n                    </tr>\n                    "

def hL28 : String := "\n                    \n                    <!-- What's Next Section -->\n                    <tr>\n                        <td style=\"padding: 0 40px 30px;\">\n                            <h3 style=\"margin: 0 0 15px; color: #112116; font-size: 18px; font-weight: 600;\">What happens next?</h3>\n                            <table role=\"presentation\" width=\"100%\" cellpadding=\"0\" cellspacing=\"0\">\n                                <!-- Step 1 -->\n                                <tr>\n                                    <td style=\"padding-bottom: 12px;\">\n                                        <table role=\"presentation\" cellpadding=\"0\" cellspacing=\"0\">\n                                            <tr>\n                                                <td style=\"width: 32px; height: 32px; background-color: #B4941E; border-radius: 50%; text-align: center; vertical-align: middle;\">\n"

def hL29 : String := "                                                    <span style=\"color: #ffffff; font-size: 14px; font-weight: 700;\">1</span>\n                                                </td>\n                                                <td style=\"padding-left: 15px;\">\n                                                    <p style=\"margin: 0; color: #112116; font-size: 15px; font-weight: 500;\">Our creative team reviews your submission</p>\n                                                </td>\n                                            </tr>\n                                        </table>\n                                    </td>\n                                </tr>\n                                <!-- Step 2 -->\n                                <tr>\n                                    <td style=\"padding-bottom: 12px;\">\n"

def hL30 : String := "                                        <table role=\"presentation\" cellpadding=\"0\" cellspacing=\"0\">\n                                            <tr>\n                                                <td style=\"width: 32px; height: 32px; background-color: #B4941E; border-radius: 50%; text-align: center; vertical-align: middle;\">\n                                                    <span style=\"color: #ffffff; font-size: 14px; font-weight: 700;\">2</span>\n                                                </td>\n                                                <td style=\"padding-left: 15px;\">\n                                                    <p style=\"margin: 0; color: #112116; font-size: 15px; font-weight: 500;\">We evaluate alignment with our creative vision</p>\n                                                </td>\n                                            </tr>\n"

def hL31 : String := "                                        </table>\n                                    </td>\n                                </tr>\n                                <!-- Step 3 -->\n                                <tr>\n                                    <td>\n                                        <table role=\"presentation\" cellpadding=\"0\" cellspacing=\"0\">\n                                            <tr>\n                                                <td style=\"width: 32px; height: 32px; background-color: #B4941E; border-radius: 50%; text-align: center; vertical-align: middle;\">\n                                                    <span style=\"color: #ffffff; font-size: 14px; font-weight: 700;\">3</span>\n                                                </td>\n                                                <td style=\"padding-left: 15px;\">\n"

def hL32 : String := "                                                    <p style=\"margin: 0; color: #112116; font-size: 15px; font-weight: 500;\">You'll hear from us within 5-7 business days</p>\n                                                </td>\n                                            </tr>\n                                        </table>\n                                    </td>\n                                </tr>\n                            </table>\n                        </td>\n                    </tr>\n                    \n                    <!-- CTA Note -->\n                    <tr>\n                        <td style=\"padding: 0 40px 30px;\">\n                            <table role=\"presentation\" width=\"100%\" cellpadding=\"0\" cellspacing=\"0\" style=\"background-color: #fffbeb; border-radius: 8px; border-left: 4px solid #B4941E;\">\n                                <tr>\n"

def hL33 : String := "                                    <td style=\"padding: 16px 20px;\">\n                                        <p style=\"margin: 0; color: #92400e; font-size: 14px; line-height: 22px;\">\n                                            <strong>Have questions?</strong> Simply reply to this email and our team will be happy to assist you.\n                                        </p>\n                                    </td>\n                                </tr>\n                            </table>\n                        </td>\n                    </tr>\n                    \n                    <!-- Divider -->\n                    <tr>\n                        <td style=\"padding: 0 40px;\">\n                            <hr style=\"border: none; border-top: 1px solid #e2e8f0; margin: 0;\">\n                        </td>\n                    </tr>\n                    \n                    <!-- Footer -->\n"

def hL34 : String := "                    <tr>\n                        <td style=\"padding: 30px 40px; text-align: center;\">\n                            <p style=\"margin: 0 0 10px; color: #B4941E; font-size: 16px; font-weight: 700; letter-spacing: 1px;\">OMI GLOBAL PRODUCTIONS</p>\n                            <p style=\"margin: 0 0 15px; color: #718096; font-size: 13px;\">Storytelling &bull; Wellness &bull; Sustainability</p>\n                            <p style=\"margin: 0; color: #a0aec0; font-size: 12px; line-height: 20px;\">\n                                &copy; "

def hL35 : String := " OMI Global Productions. All rights reserved.<br>\n                                This is a transactional email regarding your project submission.\n                            </p>\n                        </td>\n                    </tr>\n                    \n                </table>\n                \n            </td>\n        </tr>\n    </table>\n</body>\n</html>"


/-- The HTML body of the confirmation email (email_service.py lines 334-569),
    rendered with default Jinja2 semantics: a tag is replaced by nothing, the text
    around it stays, an if-block whose guard is falsy contributes nothing. -/
def htmlBody (td : TemplateData) : String :=
  hL01 ++
  (hL02 ++
  (hL03 ++
  (hL04 ++
  (hL05 ++
  (hL06 ++
  (td.first_name ++
  (hL07 ++
  (hL08 ++
  ((if pyTruthy td.title then
      hL09 ++
      (hL10 ++
      (td.title.getD "" ++
      (hL11 ++
      ((if pyTruthy td.logline then
          hL12 ++
          (td.logline.getD "" ++
          (hL13))
        else "") ++
      (hL14 ++
      ((if pyTruthy td.budget_formatted then
          hL15 ++
          (td.budget_formatted.getD "" ++
          (hL16))
        else "") ++
      (hL17 ++
      ((if pyTruthy td.languages then
          hL18 ++
          (td.languages.getD "" ++
          (hL19))
        else "") ++
      (hL20 ++
      ((if pyTruthy td.actors_str then
          hL21 ++
          (hL22 ++
          (hL23 ++
          (hL24 ++
          (hL25 ++
          (td.actors_str.getD "" ++
          (hL26))))))
        else "") ++
      (hL27)))))))))))
    else "") ++
  (hL28 ++
  (hL29 ++
  (hL30 ++
  (hL31 ++
  (hL32 ++
  (hL33 ++
  (hL34 ++
  (toString td.current_year ++
  (hL35))))))))))))))))))

/-- generate_submission_confirmation_email (email_service.py lines 293-622):
    subject and the two body renditions. The now argument is the datetime.now()
    read used for the footer year. The result is none exactly when computing the
    greeting name raises IndexError (a non-empty, all-whitespace contact name).
    The source function touches neither the network nor the database, so it is
    embedded as a pure function of its inputs. -/
def generateSubmissionConfirmationEmail (d : SubmissionData) (now : PyDateTime) :
    Option (String × String × String) :=
  match firstName d.contact_name with
  | none => none
  | some fn =>
    let td : TemplateData :=
      { first_name := fn
        title := d.title
        logline := d.logline
        budget_formatted := budgetFormatted d.budget
        languages := d.languages
        actors_str := actorsStr d
        current_year := now.year }
    some (subjectLine d.title, htmlBody td, plainBody td)

/-- The ProjectSubmission form model of main.py lines 34-57: the three contact
    fields are required strings, everything else optional. The budget keeps the
    exact-cents convention of BudgetVal.num. -/
structure ProjectSubmission where
  contact_name : String
  contact_email : String
  contact_phone : String
  title : Option String := none
  logline : Option String := none
  synopsis : Option String := none
  treatment : Option String := none
  moodboard : Option String := none
  soundtracks : Option String := none
  writer_bio : Option String := none
  actor_1 : Option String := none
  actor_2 : Option String := none
  actor_3 : Option String := none
  actor_4 : Option String := none
  actor_5 : Option String := none
  actor_6 : Option String := none
  budget : Option Int := none
  languages : Option String := none
  previous_works : Option String := none
  terms : Option String := none
deriving Repr, DecidableEq

/-- main.py lines 242-256: the dict handed to the renderer. -/
def submissionDataOf (p : ProjectSubmission) : SubmissionData :=
  { contact_name := some p.contact_name
    contact_email := some p.contact_email
    title := p.title
    logline := p.logline
    synopsis := p.synopsis
    budget := match p.budget with | none => .absent | some c => .num c
    languages := p.languages
    actor_1 := p.actor_1
    actor_2 := p.actor_2
    actor_3 := p.actor_3
    actor_4 := p.actor_4
    actor_5 := p.actor_5
    actor_6 := p.actor_6 }

/-- main.py lines 156-164: the actor slots filtered to truthy values for the
    response payload. -/
def responseActors (p : ProjectSubmission) : List String :=
  [p.actor_1, p.actor_2, p.actor_3, p.actor_4, p.actor_5, p.actor_6].filterMap
    fun a => if pyTruthy a then some (a.getD "") else none

/-- The JSON body returned by the submit endpoint (main.py lines 277-289). -/
structure SubmitResponse where
  success : Bool
  message : String
  submission_id : Option String
  db_saved : Bool
  email_queued : Bool
  data_title : Option String
  data_logline : Option String
  data_actors : List String
  data_budget : Option Int
deriving Repr, DecidableEq

/-- The arguments of one send_email_async call (email_service.py lines 271-290):
    the work handed to the background delivery thread. -/
structure EmailJob where
  toEmail : String
  toName : String
  subject : String
  bodyHtml : String
  bodyPlain : String
  submissionId : Option String
  emailType : String
deriving Repr, DecidableEq

/-- What the submit endpoint itself dispatches: at most one background email job. -/
inductive SubmitEvent where
  | emailDispatched (job : EmailJob)
deriving Repr, DecidableEq

/-- submit_project (main.py lines 152-289). The database INSERT outcome is an
    explicit oracle: Except.error models a raised exception (DB unreachable or
    query error), Except.ok none a query that returned no row, Except.ok (some n)
    the returned id. The returned event list holds the background email jobs the
    handler started; the handler itself never raises. -/
def submitProject (dbInsert : Except String (Option Nat)) (p : ProjectSubmission)
    (now : PyDateTime) : SubmitResponse × List SubmitEvent :=
  let idSaved : Option String × Bool :=
    match dbInsert with
    | .ok (some n) => (some (toString n), true)
    | .ok none => (none, false)
    | .error _ => (none, false)
  let queuedEvents : Bool × List SubmitEvent :=
    if p.contact_email ≠ "" then
      match generateSubmissionConfirmationEmail (submissionDataOf p) now with
      | some out =>
        (true,
         [SubmitEvent.emailDispatched
            { toEmail := p.contact_email
              toName := if p.contact_name ≠ "" then p.contact_name else "Valued Creator"
              subject := out.1
              bodyHtml := out.2.1
              bodyPlain := out.2.2
              submissionId := idSaved.1
              emailType := "submission_confirmation" }])
      | none => (false, [])
    else (false, [])
  ({ success := true
     message := "Project submitted successfully"
     submission_id := idSaved.1
     db_saved := idSaved.2
     email_queued := queuedEvents.1
     data_title := p.title
     data_logline := p.logline
     data_actors := responseActors p
     data_budget := p.budget }, queuedEvents.2)

/-- Delivery status column of an emails_sent row. -/
inductive EmailStatus where
  | pending
  | sent
  | failed
deriving Repr, DecidableEq

/-- One emails_sent row, with the columns the pipeline touches. Wall-clock
    timestamp columns are outside the model. -/
structure EmailRecord where
  id : Nat
  submissionId : Option String
  fromEmail : String
  fromName : String
  replyTo : String
  toEmail : String
  toName : String
  subject : String
  bodyHtml : String
  bodyPlain : String
  emailType : String
  status : EmailStatus
  messageId : Option String
  smtpResponse : Option String
  errorMessage : Option String
  retryCount : Nat
deriving Repr, DecidableEq

/-- The emails_sent table together with its id sequence. available models
    reachability: when false every query raises (and is caught by the service). -/
structure EmailDb where
  records : List EmailRecord
  nextId : Nat
  available : Bool
deriving Repr, DecidableEq

/-- Outcome of the single _send_smtp network attempt (email_service.py lines
    162-216): on success a message id and server response, on failure an empty
    message id and a human-readable error detail in response. -/
structure SmtpOutcome where
  success : Bool
  messageId : String
  response : String
deriving Repr, DecidableEq

/-- Database writes of one send_email run, in execution order, with the status
    written; smtpAttempt marks the network delivery attempt. -/
inductive SendEvent where
  | recordCreated (id : Nat) (st : EmailStatus)
  | smtpAttempt
  | recordUpdated (id : Nat) (st : EmailStatus)
deriving Repr, DecidableEq

/-- EmailService._create_email_record (email_service.py lines 49-103): INSERT a
    pending row and return its id; with no db handle or an unreachable db the
    exception is caught and None is returned, and nothing is written. -/
def createEmailRecord (db : Option EmailDb) (smtpUser senderName : String)
    (submissionId : Option String) (toEmail toName subject bodyHtml bodyPlain emailType : String) :
    Option EmailDb × Option Nat × List SendEvent :=
  match db with
  | none => (none, none, [])
  | some s =>
    if s.available then
      (some
        { s with
          records := s.records ++
            [{ id := s.nextId
               submissionId := submissionId
               fromEmail := smtpUser
               fromName := senderName
               replyTo := smtpUser
               toEmail := toEmail
               toName := toName
               subject := subject
               bodyHtml := bodyHtml
               bodyPlain := bodyPlain
               emailType := emailType
               status := .pending
               messageId := none
               smtpResponse := none
               errorMessage := none
               retryCount := 0 }]
          nextId := s.nextId + 1 },
       some s.nextId, [.recordCreated s.nextId .pending])
    else (some s, none, [])

/-- EmailService._update_email_status (email_service.py lines 105-160): a no-op
    when there is no db handle or no email id; otherwise one UPDATE of the row
    with that id -- the sent branch records message id and response, every other
    status records the error and increments retry_count. An unreachable db
    raises, is caught, and writes nothing. -/
def updateEmailStatus (db : Option EmailDb) (emailId : Option Nat) (status : EmailStatus)
    (messageId smtpResponse errorMessage : Option String) :
    Option EmailDb × List SendEvent :=
  match db, emailId with
  | none, _ => (none, [])
  | some s, none => (some s, [])
  | some s, some i =>
    if s.available then
      (some
        { s with
          records := s.records.map fun r =>
            if r.id = i then
              match status with
              | .sent =>
                { r with status := .sent, messageId := messageId, smtpResponse := smtpResponse }
              | st =>
                { r with status := st, errorMessage := errorMessage,
                         retryCount := r.retryCount + 1 }
            else r },
       [.recordUpdated i status])
    else (some s, [])

/-- EmailService.send_email (email_service.py lines 218-269): create the pending
    record, attempt SMTP delivery (its outcome an explicit oracle), then update
    the record to sent or failed. Returns ((success, email record id), final db
    state, events in execution order). -/
def sendEmail (db : Option EmailDb) (smtp : SmtpOutcome) (smtpUser senderName : String)
    (toEmail toName subject bodyHtml bodyPlain : String) (submissionId : Option String)
    (emailType : String) :
    (Bool × Option Nat) × Option EmailDb × List SendEvent :=
  let created := createEmailRecord db smtpUser senderName submissionId toEmail toName
    subject bodyHtml bodyPlain emailType
  let updated :=
    if smtp.success then
      updateEmailStatus created.1 created.2.1 .sent (some smtp.messageId) (some smtp.response) none
    else
      updateEmailStatus created.1 created.2.1 .failed none none (some smtp.response)
  ((smtp.success, created.2.1), updated.1,
   created.2.2 ++ [SendEvent.smtpAttempt] ++ updated.2)

/-- Running the background threads a submit call dispatched (the send_email_async
    targets), in order, against one db state and one SMTP oracle. -/
def runJobs (db : Option EmailDb) (smtp : SmtpOutcome) (smtpUser senderName : String) :
    List SubmitEvent → Option EmailDb × List SendEvent
  | [] => (db, [])
  | .emailDispatched j :: rest =>
    let r := sendEmail db smtp smtpUser senderName j.toEmail j.toName j.subject
      j.bodyHtml j.bodyPlain j.submissionId j.emailType
    let rec' := runJobs r.2.1 smtp smtpUser senderName rest
    (rec'.1, r.2.2 ++ rec'.2)

/-- Errors the persistence gateway can raise: the RuntimeError of get_connection
    when the pool was never initialized, or a database error from the query. -/
inductive DbErr where
  | notInitialized
  | queryFailed (msg : String)
deriving Repr, DecidableEq

/-- Observable connection-pool actions of one gateway call, in order. -/
inductive ConnEvent where
  | getconn (c : Nat)
  | commit (c : Nat)
  | rollback (c : Nat)
  | closeCursor (c : Nat)
  | putconn (c : Nat)
deriving Repr, DecidableEq

/-- The connection pool of database.py: whether initialize_pool ran, and the
    identity the next getconn call hands out. -/
structure Pool where
  initialized : Bool
  nextConn : Nat
deriving Repr, DecidableEq

/-- A row, abstractly: the gateway never inspects row contents. -/
abbrev Row := List (String × String)

/-- Database.get_cursor around a body (database.py lines 77-103). get_connection
    raises before acquiring anything when the pool is uninitialized. Otherwise a
    connection is taken from the pool, the body (the cursor work, whose outcome
    is an explicit argument) runs, a successful body is committed and a raising
    body rolled back and re-raised, the cursor is closed, and the finally block
    of get_connection returns the connection to the pool in every case. -/
def getCursor (pool : Pool) (body : Except DbErr α) :
    Except DbErr α × Pool × List ConnEvent :=
  if pool.initialized then
    let c := pool.nextConn
    let pool' : Pool := { pool with nextConn := c + 1 }
    match body with
    | .ok a => (.ok a, pool', [.getconn c, .commit c, .closeCursor c, .putconn c])
    | .error e => (.error e, pool', [.getconn c, .rollback c, .closeCursor c, .putconn c])
  else (.error .notInitialized, pool, [])

/-- Database.execute (database.py lines 105-121): run the cursor body and return
    its rows when fetch is set, None otherwise. -/
def dbExecute (pool : Pool) (fetch : Bool) (body : Except DbErr (List Row)) :
    Except DbErr (Option (List Row)) × Pool × List ConnEvent :=
  getCursor pool (body.map fun rows => if fetch then some rows else none)

/-- Database.fetch_one (database.py lines 128-132). -/
def dbFetchOne (pool : Pool) (body : Except DbErr (Option Row)) :
    Except DbErr (Option Row) × Pool × List ConnEvent :=
  getCursor pool body

/-- Database.fetch_all (database.py lines 134-138). -/
def dbFetchAll (pool : Pool) (body : Except DbErr (List Row)) :
    Except DbErr (List Row) × Pool × List ConnEvent :=
  getCursor pool body

/-- Database.execute_many (database.py lines 123-126). -/
def dbExecuteMany (pool : Pool) (body : Except DbErr Unit) :
    Except DbErr Unit × Pool × List ConnEvent :=
  getCursor pool body

/-- hay contains pat as a contiguous substring. -/
def StrContains (hay pat : String) : Prop :=
  pat.data <:+: hay.data

instance (hay pat : String) : Decidable (StrContains hay pat) :=
  List.decidableInfix pat.data hay.data

/-- Boolean prefix test on character lists. -/
def isPrefixB : List Char → List Char → Bool
  | [], _ => true
  | _ :: _, [] => false
  | p :: ps, h :: hs => p == h && isPrefixB ps hs

/-- Boolean substring scan: does pat occur in l. -/
def containsAux (pat : List Char) : List Char → Bool
  | [] => isPrefixB pat []
  | h :: t => isPrefixB pat (h :: t) || containsAux pat t

/-- Boolean substring test on strings. -/
def strContainsB (hay pat : String) : Bool :=
  containsAux pat.data hay.data

/-- Prefix test of pat against one piece with a continuation receiving the
    still-unmatched part of pat when the piece runs out first; structurally
    recursive so that concrete instances evaluate. -/
def isPrefixSeg (k : List Char → Bool) : List Char → List Char → Bool
  | [], _ => true
  | p, [] => k p
  | p :: ps, h :: hs => p == h && isPrefixSeg k ps hs

/-- Prefix test of pat against the concatenation of a list of pieces, without
    ever building the concatenation. -/
def isPrefixChunks : List Char → List (List Char) → Bool
  | p, [] => p.isEmpty
  | p, c :: cs => isPrefixSeg (fun rest => isPrefixChunks rest cs) p c

/-- Scan of the positions inside one piece, the continuation handling pattern
    tails that run past the piece. -/
def scanSeg (pat : List Char) (k : List Char → Bool) : List Char → Bool
  | [] => false
  | h :: t => isPrefixSeg k pat (h :: t) || scanSeg pat k t

/-- Substring scan of the concatenation of a list of pieces, without ever
    building the concatenation: equal to containsAux on the flattening. -/
def containsChunks (pat : List Char) : List (List Char) → Bool
  | [] => pat.isEmpty
  | c :: cs => scanSeg pat (fun rest => isPrefixChunks rest cs) c || containsChunks pat cs

theorem isPrefixB_iff (p l : List Char) : isPrefixB p l = true ↔ p <+: l := by
  induction p generalizing l with
  | nil => simp [isPrefixB]
  | cons a ps ih =>
    cases l with
    | nil => simp [isPrefixB]
    | cons b hs =>
      rw [isPrefixB, Bool.and_eq_true, beq_iff_eq, ih, List.cons_prefix_cons]

theorem containsAux_iff (p l : List Char) : containsAux p l = true ↔ p <:+: l := by
  induction l with
  | nil => simp [containsAux, isPrefixB_iff]
  | cons a t ih =>
    rw [containsAux, Bool.or_eq_true, isPrefixB_iff, ih, List.infix_cons_iff]

theorem strContainsB_iff (hay pat : String) :
    strContainsB hay pat = true ↔ StrContains hay pat :=
  containsAux_iff pat.data hay.data

theorem isPrefixB_nil (p : List Char) : isPrefixB p [] = p.isEmpty := by
  cases p <;> simp [isPrefixB]

theorem isPrefixSeg_spec (p l m : List Char) (k : List Char → Bool)
    (hk : ∀ rest, k rest = isPrefixB rest m) :
    isPrefixSeg k p l = isPrefixB p (l ++ m) := by
  induction p generalizing l with
  | nil => simp [isPrefixSeg, isPrefixB]
  | cons a ps ih =>
    cases l with
    | nil => simpa [isPrefixSeg] using hk (a :: ps)
    | cons b hs => simp [isPrefixSeg, isPrefixB, ih]

theorem isPrefixChunks_spec (p : List Char) (cs : List (List Char)) :
    isPrefixChunks p cs = isPrefixB p cs.flatten := by
  induction cs generalizing p with
  | nil => simp [isPrefixChunks, isPrefixB_nil]
  | cons c cs ih => rw [isPrefixChunks, List.flatten, isPrefixSeg_spec p c cs.flatten _ ih]

theorem scanSeg_spec (pat l m : List Char) (k : List Char → Bool)
    (hk : ∀ rest, k rest = isPrefixB rest m) :
    (scanSeg pat k l || containsAux pat m) = containsAux pat (l ++ m) := by
  induction l with
  | nil => simp [scanSeg]
  | cons h t ih =>
    simp only [scanSeg, List.cons_append, List.append_eq, containsAux, Bool.or_assoc, ih,
      isPrefixSeg_spec pat (h :: t) m k hk]

theorem containsChunks_spec (pat : List Char) (cs : List (List Char)) :
    containsChunks pat cs = containsAux pat cs.flatten := by
  induction cs with
  | nil => simp [containsChunks, containsAux, isPrefixB_nil]
  | cons c cs ih =>
    rw [containsChunks, ih, List.flatten,
      scanSeg_spec pat c cs.flatten _ (fun rest => isPrefixChunks_spec rest cs)]

theorem strContains_refl (s : String) : StrContains s s :=
  ⟨[], [], by simp⟩

theorem strContains_appL (a : String) {b pat : String} (h : StrContains b pat) :
    StrContains (a ++ b) pat := by
  obtain ⟨s, t, hst⟩ := h
  exact ⟨a.data ++ s, t, by rw [String.data_append, ← hst]; simp [List.append_assoc]⟩

theorem strContains_appR (b : String) {a pat : String} (h : StrContains a pat) :
    StrContains (a ++ b) pat := by
  obtain ⟨s, t, hst⟩ := h
  exact ⟨s, t ++ b.data, by rw [String.data_append, ← hst]; simp [List.append_assoc]⟩

theorem strContains_mid (a b pat : String) : StrContains (a ++ (pat ++ b)) pat := by
  exact ⟨a.data, b.data, by simp [String.data_append, List.append_assoc]⟩

theorem strContainsB_false_iff (hay pat : String) :
    strContainsB hay pat = false ↔ ¬ StrContains hay pat := by
  rw [← strContainsB_iff]
  cases strContainsB hay pat <;> simp

theorem append_ne_empty_of_left (a x : String) (h : a ≠ "") : a ++ x ≠ "" := by
  intro hc
  apply h
  apply String.ext
  have hd := congrArg String.data hc
  rw [String.data_append] at hd
  exact (List.append_eq_nil.mp hd).1

theorem joinCommaSpace_ne_empty (x : String) (xs : List String) (hx : x ≠ "") :
    joinCommaSpace (x :: xs) ≠ "" := by
  cases xs with
  | nil => simpa [joinCommaSpace] using hx
  | cons y ys =>
    have h : joinCommaSpace (x :: y :: ys) = x ++ ", " ++ joinCommaSpace (y :: ys) := rfl
    rw [h]
    exact append_ne_empty_of_left _ _ (append_ne_empty_of_left _ _ hx)

theorem mem_actorsList_ne_empty (d : SubmissionData) (w : String)
    (hw : w ∈ actorsList d) : w ≠ "" := by
  rw [actorsList, List.mem_filterMap] at hw
  obtain ⟨a, _, ha⟩ := hw
  by_cases hp : pyTruthy a = true
  · rw [if_pos hp] at ha
    cases ha
    cases a with
    | none => simp [pyTruthy] at hp
    | some s => simpa [pyTruthy, Option.getD_some] using hp
  · rw [if_neg hp] at ha
    cases ha

/-- Generic occurrence shape: a pattern of the form a ++ (x ++ b) stands at the
    front of a ++ (x ++ (b ++ t)). -/
theorem strContains_pre3 (a x b t : String) :
    StrContains (a ++ (x ++ (b ++ t))) (a ++ (x ++ b)) :=
  ⟨[], t.data, by simp [String.data_append, List.append_assoc]⟩

theorem plainBody_contains_greeting (td : TemplateData) :
    StrContains (plainBody td) ("Hello " ++ (td.first_name ++ ",")) := by
  simp only [plainBody, pL02, pL03]
  exact strContains_appL _ (strContains_pre3 _ _ _ _)

theorem htmlBody_contains_greeting (td : TemplateData) :
    StrContains (htmlBody td) ("Hello " ++ (td.first_name ++ ",")) := by
  simp only [htmlBody, hL06, hL07]
  apply strContains_appL
  apply strContains_appL
  apply strContains_appL
  apply strContains_appL
  apply strContains_appL
  exact strContains_pre3 _ _ _ _

theorem plainBody_contains_budget (td : TemplateData) (b : String)
    (ht : pyTruthy td.title = true) (hb : td.budget_formatted = some b)
    (hbt : pyTruthy (some b) = true) :
    StrContains (plainBody td) ("Budget: " ++ b) := by
  simp only [plainBody, ht, hb, hbt, if_true, Option.getD_some, pL10]
  apply strContains_appL pL01
  apply strContains_appL pL02
  apply strContains_appL td.first_name
  apply strContains_appL pL03
  apply strContains_appL pL04
  apply strContains_appR
  apply strContains_appL pL05
  apply strContains_appL (td.title.getD "")
  apply strContains_appL pL06
  apply strContains_appL _
  apply strContains_appL pL09
  exact strContains_appR _ (strContains_refl _)

theorem htmlBody_contains_budget (td : TemplateData) (b : String)
    (ht : pyTruthy td.title = true) (hb : td.budget_formatted = some b)
    (hbt : pyTruthy (some b) = true) :
    StrContains (htmlBody td) b := by
  simp only [htmlBody, ht, hb, hbt, if_true, Option.getD_some]
  apply strContains_appL hL01
  apply strContains_appL hL02
  apply strContains_appL hL03
  apply strContains_appL hL04
  apply strContains_appL hL05
  apply strContains_appL hL06
  apply strContains_appL td.first_name
  apply strContains_appL hL07
  apply strContains_appL hL08
  apply strContains_appR
  apply strContains_appL hL09
  apply strContains_appL hL10
  apply strContains_appL (td.title.getD "")
  apply strContains_appL hL11
  apply strContains_appL _
  apply strContains_appL hL14
  apply strContains_appR
  apply strContains_appL hL15
  exact strContains_appR _ (strContains_refl _)

theorem plainBody_contains_cast (td : TemplateData) (a : String)
    (ht : pyTruthy td.title = true) (ha : td.actors_str = some a)
    (hat : pyTruthy (some a) = true) :
    StrContains (plainBody td) ("Cast Recommendations" ++ (": " ++ a)) := by
  simp only [plainBody, ht, ha, hat, if_true, Option.getD_some, pL14, pL15]
  apply strContains_appL pL01
  apply strContains_appL pL02
  apply strContains_appL td.first_name
  apply strContains_appL pL03
  apply strContains_appL pL04
  apply strContains_appR
  apply strContains_appL pL05
  apply strContains_appL (td.title.getD "")
  apply strContains_appL pL06
  apply strContains_appL _
  apply strContains_appL pL09
  apply strContains_appL _
  apply strContains_appL pL11
  apply strContains_appL _
  apply strContains_appL pL13
  exact strContains_appR _ (strContains_refl _)

theorem htmlBody_contains_cast_label (td : TemplateData) (a : String)
    (ht : pyTruthy td.title = true) (ha : td.actors_str = some a)
    (hat : pyTruthy (some a) = true) :
    StrContains (htmlBody td) "Cast Recommendations" := by
  simp only [htmlBody, ht, ha, hat, if_true, Option.getD_some, hL22]
  apply strContains_appL hL01
  apply strContains_appL hL02
  apply strContains_appL hL03
  apply strContains_appL hL04
  apply strContains_appL hL05
  apply strContains_appL hL06
  apply strContains_appL td.first_name
  apply strContains_appL hL07
  apply strContains_appL hL08
  apply strContains_appR
  apply strContains_appL hL09
  apply strContains_appL hL10
  apply strContains_appL (td.title.getD "")
  apply strContains_appL hL11
  apply strContains_appL _
  apply strContains_appL hL14
  apply strContains_appL _
  apply strContains_appL hL17
  apply strContains_appL _
  apply strContains_appL hL20
  apply strContains_appR
  apply strContains_appL hL21
  exact strContains_appR _ (strContains_refl _)

theorem htmlBody_contains_cast_value (td : TemplateData) (a : String)
    (ht : pyTruthy td.title = true) (ha : td.actors_str = some a)
    (hat : pyTruthy (some a) = true) :
    StrContains (htmlBody td) a := by
  simp only [htmlBody, ht, ha, hat, if_true, Option.getD_some]
  apply strContains_appL hL01
  apply strContains_appL hL02
  apply strContains_appL hL03
  apply strContains_appL hL04
  apply strContains_appL hL05
  apply strContains_appL hL06
  apply strContains_appL td.first_name
  apply strContains_appL hL07
  apply strContains_appL hL08
  apply strContains_appR
  apply strContains_appL hL09
  apply strContains_appL hL10
  apply strContains_appL (td.title.getD "")
  apply strContains_appL hL11
  apply strContains_appL _
  apply strContains_appL hL14
  apply strContains_appL _
  apply strContains_appL hL17
  apply strContains_appL _
  apply strContains_appL hL20
  apply strContains_appR
  apply strContains_appL hL21
  apply strContains_appL hL22
  apply strContains_appL hL23
  apply strContains_appL hL24
  apply strContains_appL hL25
  exact strContains_appR _ (strContains_refl _)

/-- A representative submission with a title and no optional extras, used where a
    concrete rendition with no budget and no cast is needed. -/
def oceanSub : SubmissionData :=
  { contact_name := some "Jane Doe", contact_email := some "jane@x.com",
    title := some "Ocean" }

/-- A fixed render instant. -/
def year2025 : PyDateTime := { year := 2025 }

/-- The template data the renderer builds for oceanSub at year2025. -/
def tdOcean : TemplateData :=
  { first_name := "Jane", title := some "Ocean", logline := none,
    budget_formatted := none, languages := none, actors_str := none,
    current_year := 2025 }

theorem render_ocean :
    generateSubmissionConfirmationEmail oceanSub year2025 =
      some (subjectLine (some "Ocean"), htmlBody tdOcean, plainBody tdOcean) := rfl

/-- The pieces whose concatenation is the plain rendition for tdOcean. -/
def oceanPlainChunks : List String :=
  [pL01, pL02, "Jane", pL03, pL04, pL05, "Ocean", pL06, pL09, pL11, pL13, pL16,
   pL17, toString (2025 : Nat), pL18]

/-- The pieces whose concatenation is the HTML rendition for tdOcean. -/
def oceanHtmlChunks : List String :=
  [hL01, hL02, hL03, hL04, hL05, hL06, "Jane", hL07, hL08, hL09, hL10, "Ocean",
   hL11, hL14, hL17, hL20, hL27, hL28, hL29, hL30, hL31, hL32, hL33, hL34,
   toString (2025 : Nat), hL35]

theorem ocean_plain_data :
    (plainBody tdOcean).data = (oceanPlainChunks.map String.data).flatten := by
  simp [plainBody, tdOcean, pyTruthy, oceanPlainChunks, String.data_append]

theorem ocean_html_data :
    (htmlBody tdOcean).data = (oceanHtmlChunks.map String.data).flatten := by
  simp [htmlBody, tdOcean, pyTruthy, oceanHtmlChunks, String.data_append]

set_option maxRecDepth 4000

theorem ocean_plain_no_budget : ¬ StrContains (plainBody tdOcean) "Budget" := by
  rw [← strContainsB_false_iff, strContainsB, ocean_plain_data, ← containsChunks_spec]
  decide

theorem ocean_html_no_budget : ¬ StrContains (htmlBody tdOcean) "Budget" := by
  rw [← strContainsB_false_iff, strContainsB, ocean_html_data, ← containsChunks_spec]
  decide

theorem ocean_plain_no_cast : ¬ StrContains (plainBody tdOcean) "Cast Recommendations" := by
  rw [← strContainsB_false_iff, strContainsB, ocean_plain_data, ← containsChunks_spec]
  decide

theorem ocean_html_no_cast : ¬ StrContains (htmlBody tdOcean) "Cast Recommendations" := by
  rw [← strContainsB_false_iff, strContainsB, ocean_html_data, ← containsChunks_spec]
  decide

/-- A submission with an actor recommendation but no project title, and its
    template data. -/
def aliceSub : SubmissionData :=
  { contact_name := some "Jane Doe", actor_1 := some "Alice Smith" }

def tdAlice : TemplateData :=
  { first_name := "Jane", title := none, logline := none, budget_formatted := none,
    languages := none, actors_str := actorsStr aliceSub, current_year := 2025 }

/-- The pieces whose concatenation is the plain rendition for tdAlice. -/
def alicePlainChunks : List String :=
  [pL01, pL02, "Jane", pL03, pL04, pL17, toString (2025 : Nat), pL18]

/-- The pieces whose concatenation is the HTML rendition for tdAlice. -/
def aliceHtmlChunks : List String :=
  [hL01, hL02, hL03, hL04, hL05, hL06, "Jane", hL07, hL08, hL28, hL29, hL30, hL31,
   hL32, hL33, hL34, toString (2025 : Nat), hL35]

theorem alice_plain_data :
    (plainBody tdAlice).data = (alicePlainChunks.map String.data).flatten := by
  simp [plainBody, tdAlice, pyTruthy, alicePlainChunks, String.data_append]

theorem alice_html_data :
    (htmlBody tdAlice).data = (aliceHtmlChunks.map String.data).flatten := by
  simp [htmlBody, tdAlice, pyTruthy, aliceHtmlChunks, String.data_append]

theorem alice_plain_no_budget : ¬ StrContains (plainBody tdAlice) "Budget" := by
  rw [← strContainsB_false_iff, strContainsB, alice_plain_data, ← containsChunks_spec]
  decide

theorem alice_html_no_budget : ¬ StrContains (htmlBody tdAlice) "Budget" := by
  rw [← strContainsB_false_iff, strContainsB, alice_html_data, ← containsChunks_spec]
  decide

theorem alice_plain_no_amount :
    ¬ StrContains (plainBody tdAlice) ("$" ++ formatCommaTwo 123450) := by
  rw [← strContainsB_false_iff, strContainsB, alice_plain_data, ← containsChunks_spec]
  decide

theorem alice_html_no_amount :
    ¬ StrContains (htmlBody tdAlice) ("$" ++ formatCommaTwo 123450) := by
  rw [← strContainsB_false_iff, strContainsB, alice_html_data, ← containsChunks_spec]
  decide

/-- The titleless alice submission carrying a truthy, numeric, nonzero budget of
    $1,234.50, and its template data. -/
def aliceBudgetSub : SubmissionData := { aliceSub with budget := BudgetVal.num 123450 }

def tdAliceBudget : TemplateData :=
  { tdAlice with budget_formatted := budgetFormatted aliceBudgetSub.budget }

/-- The same submission with every actor slot cleared. -/
def clearActors (d : SubmissionData) : SubmissionData :=
  { d with actor_1 := none, actor_2 := none, actor_3 := none,
           actor_4 := none, actor_5 := none, actor_6 := none }

/-- A falsy budget (absent, zero, or the empty string) renders exactly as an
    absent budget does. -/
theorem render_budget_falsy (d : SubmissionData) (now : PyDateTime)
    (h : budgetFormatted d.budget = none) :
    generateSubmissionConfirmationEmail d now =
      generateSubmissionConfirmationEmail { d with budget := .absent } now := by
  have h2 : budgetFormatted BudgetVal.absent = none := rfl
  have h3 : actorsStr { d with budget := BudgetVal.absent } = actorsStr d := by
    simp [actorsStr, actorsList]
  simp only [generateSubmissionConfirmationEmail, h, h2, h3]

/-- With a falsy title the whole details section of the plain rendition drops,
    so the budget value never reaches the output. -/
theorem plainBody_title_falsy (fn : String) (t lg b1 b2 lang acs : Option String) (y : Nat)
    (h : pyTruthy t = false) :
    plainBody { first_name := fn, title := t, logline := lg, budget_formatted := b1,
                languages := lang, actors_str := acs, current_year := y } =
      plainBody { first_name := fn, title := t, logline := lg, budget_formatted := b2,
                  languages := lang, actors_str := acs, current_year := y } := by
  simp [plainBody, h]

/-- With a falsy title the whole details section of the rich rendition drops,
    so the budget value never reaches the output. -/
theorem htmlBody_title_falsy (fn : String) (t lg b1 b2 lang acs : Option String) (y : Nat)
    (h : pyTruthy t = false) :
    htmlBody { first_name := fn, title := t, logline := lg, budget_formatted := b1,
               languages := lang, actors_str := acs, current_year := y } =
      htmlBody { first_name := fn, title := t, logline := lg, budget_formatted := b2,
                 languages := lang, actors_str := acs, current_year := y } := by
  simp [htmlBody, h]

/-- A submission without a truthy title renders exactly as the same submission
    with the budget removed: the details section that would carry the budget
    line is skipped entirely, so the budget cannot reach either rendition. -/
theorem render_title_falsy (d : SubmissionData) (now : PyDateTime)
    (h : pyTruthy d.title = false) :
    generateSubmissionConfirmationEmail d now =
      generateSubmissionConfirmationEmail { d with budget := .absent } now := by
  have h3 : actorsStr { d with budget := BudgetVal.absent } = actorsStr d := by
    simp [actorsStr, actorsList]
  simp only [generateSubmissionConfirmationEmail, h3]
  cases firstName d.contact_name with
  | none => rfl
  | some fn =>
    simp only [Option.some.injEq, Prod.mk.injEq, true_and]
    exact ⟨htmlBody_title_falsy fn d.title d.logline _ _ d.languages (actorsStr d) now.year h,
      plainBody_title_falsy fn d.title d.logline _ _ d.languages (actorsStr d) now.year h⟩

/-- The titleless alice submission with its $1,234.50 budget renders exactly as
    the budgetless tdAlice renditions do. -/
theorem render_alice_budget :
    generateSubmissionConfirmationEmail aliceBudgetSub year2025 =
      some (subjectLine none, htmlBody tdAlice, plainBody tdAlice) := by
  have e : generateSubmissionConfirmationEmail aliceBudgetSub year2025 =
      some (subjectLine none, htmlBody tdAliceBudget, plainBody tdAliceBudget) := rfl
  have hh : htmlBody tdAliceBudget = htmlBody tdAlice :=
    htmlBody_title_falsy "Jane" none none (budgetFormatted aliceBudgetSub.budget) none none
      (actorsStr aliceSub) 2025 rfl
  have hp : plainBody tdAliceBudget = plainBody tdAlice :=
    plainBody_title_falsy "Jane" none none (budgetFormatted aliceBudgetSub.budget) none none
      (actorsStr aliceSub) 2025 rfl
  rw [e, hh, hp]

/-- When no actor slot is truthy, the renditions are those of the submission
    with all actor slots cleared. -/
theorem render_actors_none (d : SubmissionData) (now : PyDateTime)
    (h : actorsList d = []) :
    generateSubmissionConfirmationEmail d now =
      generateSubmissionConfirmationEmail (clearActors d) now := by
  have h2 : actorsList (clearActors d) = [] := by
    simp [actorsList, clearActors, pyTruthy]
  simp only [generateSubmissionConfirmationEmail, actorsStr, h, h2, if_true]
  rfl

theorem mem_splitWsAux_ne_empty :
    ∀ (l acc : List Char) (w : String), w ∈ splitWsAux acc l → w ≠ "" := by
  intro l
  induction l with
  | nil =>
    intro acc w hw
    rw [splitWsAux] at hw
    by_cases ha : acc.isEmpty
    · simp [ha] at hw
    · simp [ha] at hw
      subst hw
      intro hc
      apply ha
      have hd := congrArg String.data hc
      simp only [List.reverse_eq_nil_iff] at hd
      simp [List.isEmpty_iff, hd]
  | cons c rest ih =>
    intro acc w hw
    rw [splitWsAux] at hw
    by_cases hc : pyIsSpace c = true
    · rw [if_pos hc] at hw
      rcases List.mem_append.mp hw with hl | hr
      · by_cases ha : acc.isEmpty
        · simp [ha] at hl
        · simp [ha] at hl
          subst hl
          intro hceq
          apply ha
          have hd := congrArg String.data hceq
          simp only [List.reverse_eq_nil_iff] at hd
          simp [List.isEmpty_iff, hd]
      · exact ih [] w hr
    · rw [if_neg hc] at hw
      exact ih (c :: acc) w hw

theorem firstName_ne_empty (cn : Option String) (fn : String)
    (h : firstName cn = some fn) : fn ≠ "" := by
  rw [firstName] at h
  by_cases ht : pyTruthy cn = true
  · rw [if_pos ht] at h
    cases hsp : pySplitWs (cn.getD "") with
    | nil => rw [hsp] at h; cases h
    | cons w ws =>
      rw [hsp] at h
      cases h
      exact mem_splitWsAux_ne_empty _ _ _ (hsp ▸ List.mem_cons_self _ _)
  · rw [if_neg ht] at h
    cases h
    decide

/-- Does a pool event release a connection. -/
def isPutconnEv : ConnEvent → Bool
  | .putconn _ => true
  | _ => false

/-- Does a pool event acquire a connection. -/
def isGetconnEv : ConnEvent → Bool
  | .getconn _ => true
  | _ => false

/-- C4: every gateway call through get_cursor either runs on an initialized pool
    -- acquiring one connection, committing on success or rolling back and
    re-raising on an exception, closing the cursor and always returning the
    connection to the pool last -- or fails fast before acquiring anything when
    the pool is uninitialized; in every case the number of releases equals the
    number of acquisitions. -/
theorem c4_gateway_connection_discipline {α : Type} (pool : Pool) (body : Except DbErr α) :
    (pool.initialized = true →
      getCursor pool body =
        (body, { initialized := pool.initialized, nextConn := pool.nextConn + 1 },
         [.getconn pool.nextConn,
          (match body with
           | .ok _ => ConnEvent.commit pool.nextConn
           | .error _ => ConnEvent.rollback pool.nextConn),
          .closeCursor pool.nextConn, .putconn pool.nextConn])) ∧
    (pool.initialized = false →
      getCursor pool body = (.error .notInitialized, pool, [])) ∧
    (getCursor pool body).2.2.countP isPutconnEv =
      (getCursor pool body).2.2.countP isGetconnEv := by
  refine ⟨fun hi => ?_, fun hi => ?_, ?_⟩
  · cases body <;> simp [getCursor, hi]
  · simp [getCursor, hi]
  · cases hi : pool.initialized <;> cases body <;>
      simp [getCursor, hi, isPutconnEv, isGetconnEv, List.countP_cons]

/-- C4 witness: a successful and an uninitialized call, each instantiating the
    contract. -/
theorem c4_gateway_connection_discipline_witness :
    getCursor { initialized := true, nextConn := 5 } (Except.ok (7 : Nat)) =
      (.ok 7, { initialized := true, nextConn := 6 },
       [.getconn 5, .commit 5, .closeCursor 5, .putconn 5]) ∧
    getCursor { initialized := false, nextConn := 0 } (Except.ok (7 : Nat)) =
      (.error .notInitialized, { initialized := false, nextConn := 0 }, []) :=
  ⟨(c4_gateway_connection_discipline _ _).1 rfl,
   (c4_gateway_connection_discipline _ _).2.1 rfl⟩

/-- The audit row send_email leaves behind for one attempt with SMTP outcome
    smtp: terminal status, provider fields on success, error detail and a retry
    count of one on failure. -/
def terminalRecord (smtp : SmtpOutcome) (u n te tn su bh bp : String)
    (sid : Option String) (et : String) (i : Nat) : EmailRecord :=
  { id := i
    submissionId := sid
    fromEmail := u
    fromName := n
    replyTo := u
    toEmail := te
    toName := tn
    subject := su
    bodyHtml := bh
    bodyPlain := bp
    emailType := et
    status := if smtp.success then .sent else .failed
    messageId := if smtp.success then some smtp.messageId else none
    smtpResponse := if smtp.success then some smtp.response else none
    errorMessage := if smtp.success then none else some smtp.response
    retryCount := if smtp.success then 0 else 1 }

/-- C2: with a reachable database, send_email creates the EmailRecord in pending
    status strictly before the SMTP attempt, then updates that one record exactly
    once to its terminal status: sent (with provider message id and response)
    on success, failed (with error detail and the retry counter incremented from
    0 to 1) otherwise; no second record is created by the update and the
    existing rows are untouched. -/
theorem c2_email_record_lifecycle (s : EmailDb) (smtp : SmtpOutcome)
    (u n te tn su bh bp : String) (sid : Option String) (et : String)
    (hav : s.available = true)
    (hfresh : ∀ r ∈ s.records, r.id ≠ s.nextId) :
    sendEmail (some s) smtp u n te tn su bh bp sid et =
      ((smtp.success, some s.nextId),
       some { records := s.records ++ [terminalRecord smtp u n te tn su bh bp sid et s.nextId]
              nextId := s.nextId + 1
              available := s.available },
       [.recordCreated s.nextId .pending, .smtpAttempt,
        .recordUpdated s.nextId (if smtp.success then .sent else .failed)]) := by
  have hmap : ∀ (g : EmailRecord → EmailRecord),
      (s.records.map fun r => if r.id = s.nextId then g r else r) = s.records := by
    intro g
    conv_rhs => rw [← List.map_id s.records]
    apply List.map_congr_left
    intro r hr
    simp [hfresh r hr]
  cases hs : smtp.success <;>
    simp [sendEmail, createEmailRecord, updateEmailStatus, terminalRecord, hav, hs,
      List.map_append, hmap]

/-- An empty reachable emails_sent table whose sequence stands at 1. -/
def emptyEmailDb : EmailDb := { records := [], nextId := 1, available := true }

/-- C2 witness: one successful attempt against the empty table. -/
theorem c2_email_record_lifecycle_witness :
    sendEmail (some emptyEmailDb) { success := true, messageId := "mid-1", response := "250 OK" }
      "svc@omi" "OMI" "jane@x.com" "Jane Doe" "Subject" "<html>" "plain" (some "17")
      "submission_confirmation" =
      ((true, some 1),
       some { records :=
                [terminalRecord { success := true, messageId := "mid-1", response := "250 OK" }
                   "svc@omi" "OMI" "jane@x.com" "Jane Doe" "Subject" "<html>" "plain"
                   (some "17") "submission_confirmation" 1]
              nextId := 2
              available := true },
       [.recordCreated 1 .pending, .smtpAttempt, .recordUpdated 1 .sent]) :=
  c2_email_record_lifecycle emptyEmailDb _ _ _ _ _ _ _ _ _ _ rfl (by simp [emptyEmailDb])

/-- C9: when creating the EmailRecord yields no id (no db handle or an
    unreachable database), the SMTP attempt still proceeds and the terminal
    update is a silent no-op: the database state is unchanged, no row event is
    recorded, and no error is raised. -/
theorem c9_update_noop_without_record (db : Option EmailDb) (smtp : SmtpOutcome)
    (u n te tn su bh bp : String) (sid : Option String) (et : String)
    (h : (createEmailRecord db u n sid te tn su bh bp et).2.1 = none) :
    sendEmail db smtp u n te tn su bh bp sid et =
      ((smtp.success, none), db, [.smtpAttempt]) := by
  cases db with
  | none =>
    cases hs : smtp.success <;>
      simp [sendEmail, createEmailRecord, updateEmailStatus, hs]
  | some s =>
    by_cases hav : s.available = true
    · exfalso
      simp [createEmailRecord, hav] at h
    · have hav2 : s.available = false := by
        cases hx : s.available
        · rfl
        · exact absurd hx hav
      cases hs : smtp.success <;>
        simp [sendEmail, createEmailRecord, updateEmailStatus, hav2, hs]

/-- C9 witness: a failed delivery with no db handle at all. -/
theorem c9_update_noop_without_record_witness :
    sendEmail none { success := false, messageId := "", response := "SMTP error: boom" }
      "svc@omi" "OMI" "jane@x.com" "Jane" "Subject" "<html>" "plain" none
      "submission_confirmation" =
      ((false, none), none, [.smtpAttempt]) :=
  c9_update_noop_without_record none _ _ _ _ _ _ _ _ none _ rfl

/-- The Jane Doe scenario submission of the spec, budget $50,000 in cents. -/
def janeProject : ProjectSubmission :=
  { contact_name := "Jane Doe", contact_email := "jane@x.com",
    contact_phone := "555-1111", title := some "Ocean", budget := some 5000000 }

/-- A submission whose required contact name is a single space: truthy for
    Python, yet holding no whitespace-separated token. -/
def blankNameProject : ProjectSubmission :=
  { contact_name := " ", contact_email := "jane@x.com",
    contact_phone := "555-1111", title := some "Ocean" }

/-- C1 (amended): when the database INSERT raises, submit_project still returns
    a success acknowledgement with submission_id None and db_saved False -- the
    failure is never propagated -- and, provided a contact email is present and
    the email preparation (rendering) itself does not raise, the confirmation
    email is still queued. -/
theorem c1_db_failure_acknowledged (e : String) (p : ProjectSubmission) (now : PyDateTime) :
    (submitProject (.error e) p now).1.success = true ∧
    (submitProject (.error e) p now).1.submission_id = none ∧
    (submitProject (.error e) p now).1.db_saved = false ∧
    (p.contact_email ≠ "" →
      (generateSubmissionConfirmationEmail (submissionDataOf p) now).isSome = true →
      (submitProject (.error e) p now).1.email_queued = true) := by
  refine ⟨rfl, rfl, rfl, fun hne hr => ?_⟩
  obtain ⟨out, hout⟩ := Option.isSome_iff_exists.mp hr
  simp [submitProject, hne, hout]

/-- C1 witness: the Jane Doe submission with the database down is still
    acknowledged and its email queued. -/
theorem c1_db_failure_acknowledged_witness :
    (submitProject (.error "connection refused") janeProject year2025).1.success = true ∧
    (submitProject (.error "connection refused") janeProject year2025).1.submission_id = none ∧
    (submitProject (.error "connection refused") janeProject year2025).1.db_saved = false ∧
    (submitProject (.error "connection refused") janeProject year2025).1.email_queued = true := by
  obtain ⟨h1, h2, h3, h4⟩ :=
    c1_db_failure_acknowledged "connection refused" janeProject year2025
  exact ⟨h1, h2, h3, h4 (by decide) rfl⟩

/-- C1 counterexample: the claim as stated fails -- with the insert failing and a
    contact email present, a whitespace-only contact name makes the renderer
    raise inside the try-block, so email_queued is False. -/
theorem c1_counterexample :
    blankNameProject.contact_email ≠ "" ∧
    (submitProject (.error "connection refused") blankNameProject year2025).1.success = true ∧
    (submitProject (.error "connection refused") blankNameProject year2025).1.email_queued
      = false :=
  ⟨by decide, rfl, rfl⟩

/-- C5: with an empty contact email the submit endpoint reports
    email_queued = False, dispatches no background email job, and -- since
    EmailRecords are only created by dispatched jobs -- running the (empty) job
    list creates no EmailRecord and leaves the database untouched. -/
theorem c5_no_email_without_address (ins : Except String (Option Nat))
    (p : ProjectSubmission) (now : PyDateTime) (h : p.contact_email = "") :
    (submitProject ins p now).1.email_queued = false ∧
    (submitProject ins p now).2 = [] ∧
    ∀ (db : Option EmailDb) (smtp : SmtpOutcome) (u n : String),
      runJobs db smtp u n (submitProject ins p now).2 = (db, []) := by
  have h2 : (submitProject ins p now).2 = [] := by simp [submitProject, h]
  have h1 : (submitProject ins p now).1.email_queued = false := by simp [submitProject, h]
  exact ⟨h1, h2, fun db smtp u n => by rw [h2]; rfl⟩

/-- A submission with an empty contact email. -/
def emptyEmailProject : ProjectSubmission :=
  { contact_name := "Jane Doe", contact_email := "", contact_phone := "555-1111",
    title := some "Ocean" }

/-- C5 witness: the empty-email submission against a successful insert. -/
theorem c5_no_email_without_address_witness :
    (submitProject (.ok (some 17)) emptyEmailProject year2025).1.email_queued = false ∧
    (submitProject (.ok (some 17)) emptyEmailProject year2025).2 = [] ∧
    runJobs (some emptyEmailDb) { success := true, messageId := "m", response := "OK" }
      "svc@omi" "OMI" (submitProject (.ok (some 17)) emptyEmailProject year2025).2 =
      (some emptyEmailDb, []) := by
  obtain ⟨h1, h2, h3⟩ :=
    c5_no_email_without_address (.ok (some 17)) emptyEmailProject year2025 rfl
  exact ⟨h1, h2, h3 _ _ _ _⟩

/-- C6: whenever the renderer produces an email, its subject is the fixed prefix
    followed by the title when a title is present, and one fixed generic subject
    independent of all other fields otherwise. -/
theorem c6_subject_line (d : SubmissionData) (now : PyDateTime)
    (out : String × String × String)
    (h : generateSubmissionConfirmationEmail d now = some out) :
    (∀ t, d.title = some t → t ≠ "" → out.1 = "We've Received Your Project: " ++ t) ∧
    (pyTruthy d.title = false → out.1 = "Your Project Submission Has Been Received") := by
  have h1 : out.1 = subjectLine d.title := by
    unfold generateSubmissionConfirmationEmail at h
    cases hfn : firstName d.contact_name <;> rw [hfn] at h
    · cases h
    · cases h
      rfl
  constructor
  · intro t ht htne
    rw [h1, ht, subjectLine]
    simp [pyTruthy, htne]
  · intro hfalse
    rw [h1, subjectLine, hfalse]
    simp

/-- C6 witness: the Ocean submission gets the titled subject. -/
theorem c6_subject_line_witness :
    ∃ out, generateSubmissionConfirmationEmail oceanSub year2025 = some out ∧
      out.1 = "We've Received Your Project: Ocean" := by
  refine ⟨(subjectLine (some "Ocean"), htmlBody tdOcean, plainBody tdOcean),
    render_ocean, ?_⟩
  have h := (c6_subject_line oceanSub year2025 _ render_ocean).1 "Ocean" rfl (by decide)
  rw [h]
  rfl

/-- C8: the renderer is deterministic and depends on the ambient time only
    through the year of the clock reading -- two calls with identical submission
    data and instants with equal year fields produce identical (subject, rich
    body, plain body) triples. Having type SubmissionData to PyDateTime to
    Option of the output triple, the embedded function performs no network or
    database effects. -/
theorem c8_renderer_deterministic (d : SubmissionData) (t1 t2 : PyDateTime)
    (h : t1.year = t2.year) :
    generateSubmissionConfirmationEmail d t1 = generateSubmissionConfirmationEmail d t2 := by
  unfold generateSubmissionConfirmationEmail
  rw [h]

/-- C8 witness: two different instants of 2025 render the Ocean submission
    identically. -/
theorem c8_renderer_deterministic_witness :
    generateSubmissionConfirmationEmail oceanSub
        { year := 2025, month := 3, day := 14, hour := 9 } =
      generateSubmissionConfirmationEmail oceanSub
        { year := 2025, month := 11, day := 2, hour := 23 } :=
  c8_renderer_deterministic oceanSub _ _ rfl

/-- C3 (amended): budget rendering. The spec example: 123450 cents formats as
    $1,234.50. With a title present and a numeric nonzero budget, both
    renditions carry the formatted amount (the plain rendition as a Budget
    line). With a title present and a non-empty budget string that float() does
    not accept, the value is rendered as-is. A falsy budget (absent, zero, or
    the empty string) renders exactly as an absent budget, and the
    representative no-budget submission contains no budget line in either
    rendition. A submission without a truthy title renders exactly as the same
    submission with the budget removed, and the representative titleless
    submission that carries a truthy nonzero numeric budget still contains no
    budget line in either rendition. -/
theorem c3_budget_rendering :
    budgetFormatted (.num 123450) = some "$1,234.50" ∧
    (∀ (d : SubmissionData) (now : PyDateTime) (out : String × String × String) (c : Int),
      generateSubmissionConfirmationEmail d now = some out →
      pyTruthy d.title = true → d.budget = .num c → c ≠ 0 →
      StrContains out.2.1 ("$" ++ formatCommaTwo c) ∧
      StrContains out.2.2 ("Budget: $" ++ formatCommaTwo c)) ∧
    (∀ (d : SubmissionData) (now : PyDateTime) (out : String × String × String) (s : String),
      generateSubmissionConfirmationEmail d now = some out →
      pyTruthy d.title = true → d.budget = .str s → s ≠ "" → pyFloatCents s = none →
      StrContains out.2.1 s ∧ StrContains out.2.2 ("Budget: " ++ s)) ∧
    (∀ (d : SubmissionData) (now : PyDateTime), budgetFormatted d.budget = none →
      generateSubmissionConfirmationEmail d now =
        generateSubmissionConfirmationEmail { d with budget := .absent } now) ∧
    (∀ (d : SubmissionData) (now : PyDateTime), pyTruthy d.title = false →
      generateSubmissionConfirmationEmail d now =
        generateSubmissionConfirmationEmail { d with budget := .absent } now) ∧
    (∃ out, generateSubmissionConfirmationEmail oceanSub year2025 = some out ∧
      ¬ StrContains out.2.1 "Budget" ∧ ¬ StrContains out.2.2 "Budget") ∧
    (aliceBudgetSub.budget = .num 123450 ∧ pyTruthy aliceBudgetSub.title = false ∧
      ∃ out, generateSubmissionConfirmationEmail aliceBudgetSub year2025 = some out ∧
        ¬ StrContains out.2.1 "Budget" ∧ ¬ StrContains out.2.2 "Budget") := by
  refine ⟨by decide, ?_, ?_, render_budget_falsy, render_title_falsy,
    ⟨_, render_ocean, ocean_html_no_budget, ocean_plain_no_budget⟩,
    rfl, rfl,
    ⟨_, render_alice_budget, alice_html_no_budget, alice_plain_no_budget⟩⟩
  · intro d now out c hout ht hb hc
    unfold generateSubmissionConfirmationEmail at hout
    cases hfn : firstName d.contact_name with
    | none => rw [hfn] at hout; cases hout
    | some fn =>
      rw [hfn] at hout
      cases hout
      have hbf : budgetFormatted d.budget = some ("$" ++ formatCommaTwo c) := by
        rw [hb]
        simp [budgetFormatted, hc]
      have hbt : pyTruthy (some ("$" ++ formatCommaTwo c)) = true := by
        simp only [pyTruthy, decide_eq_true_eq]
        exact append_ne_empty_of_left _ _ (by decide)
      refine ⟨htmlBody_contains_budget _ _ ht hbf hbt, ?_⟩
      have heq : ("Budget: $" : String) ++ formatCommaTwo c =
          "Budget: " ++ ("$" ++ formatCommaTwo c) := by
        rw [← String.append_assoc]
        congr 1
      rw [heq]
      exact plainBody_contains_budget _ _ ht hbf hbt
  · intro d now out s hout ht hb hs hp
    unfold generateSubmissionConfirmationEmail at hout
    cases hfn : firstName d.contact_name with
    | none => rw [hfn] at hout; cases hout
    | some fn =>
      rw [hfn] at hout
      cases hout
      have hbf : budgetFormatted d.budget = some s := by
        rw [hb]
        simp [budgetFormatted, hs, hp]
      have hst : pyTruthy (some s) = true := by
        simp only [pyTruthy, decide_eq_true_eq]
        exact hs
      exact ⟨htmlBody_contains_budget _ _ ht hbf hst,
        plainBody_contains_budget _ _ ht hbf hst⟩

/-- The Ocean submission carrying a $50,000 budget, and its template data. -/
def oceanBudgetSub : SubmissionData := { oceanSub with budget := BudgetVal.num 5000000 }

def tdOceanBudget : TemplateData :=
  { tdOcean with budget_formatted := budgetFormatted oceanBudgetSub.budget }

/-- C3 witness: the $50,000 Ocean submission carries the formatted amount in
    both renditions, and the titleless alice submission with its $1,234.50
    budget renders exactly as it does with the budget removed. -/
theorem c3_budget_rendering_witness :
    (StrContains (htmlBody tdOceanBudget) ("$" ++ formatCommaTwo 5000000) ∧
      StrContains (plainBody tdOceanBudget) ("Budget: $" ++ formatCommaTwo 5000000)) ∧
    generateSubmissionConfirmationEmail aliceBudgetSub year2025 =
      generateSubmissionConfirmationEmail { aliceBudgetSub with budget := .absent } year2025 :=
  ⟨c3_budget_rendering.2.1 oceanBudgetSub year2025
      (subjectLine oceanBudgetSub.title, htmlBody tdOceanBudget, plainBody tdOceanBudget)
      5000000 rfl (by decide) rfl (by decide),
    c3_budget_rendering.2.2.2.2.1 aliceBudgetSub year2025 (by decide)⟩

/-- C3 counterexample, refuting the claim that every present numeric budget is
    rendered as the formatted currency amount, in two ways. First, a budget of
    zero on the titled Ocean submission is present and numeric, the render
    succeeds, yet the plain rendition carries no currency string at all.
    Second, the exact spec example 1234.50 on a titleless submission is
    present, numeric and nonzero, the render succeeds, yet neither rendition
    contains the formatted amount $1,234.50. -/
theorem c3_counterexample :
    (({ oceanSub with budget := BudgetVal.num 0 } : SubmissionData).budget = BudgetVal.num 0 ∧
      (∃ out, generateSubmissionConfirmationEmail { oceanSub with budget := BudgetVal.num 0 }
          year2025 = some out ∧ ¬ StrContains out.2.2 "$")) ∧
    (aliceBudgetSub.budget = BudgetVal.num 123450 ∧
      (∃ out, generateSubmissionConfirmationEmail aliceBudgetSub year2025 = some out ∧
        ¬ StrContains out.2.1 ("$" ++ formatCommaTwo 123450) ∧
        ¬ StrContains out.2.2 ("$" ++ formatCommaTwo 123450))) := by
  refine ⟨⟨rfl, ⟨(subjectLine (some "Ocean"), htmlBody tdOcean, plainBody tdOcean), rfl, ?_⟩⟩,
    rfl, ⟨(subjectLine none, htmlBody tdAlice, plainBody tdAlice), render_alice_budget,
      alice_html_no_amount, alice_plain_no_amount⟩⟩
  rw [← strContainsB_false_iff, strContainsB, ocean_plain_data, ← containsChunks_spec]
  decide

/-- C7 (amended): the cast line. Whenever the render succeeds with a truthy
    title and at least one truthy actor slot, the plain rendition carries the
    line of the non-empty actor names in slot order joined by comma-space, and
    the rich rendition carries the Cast Recommendations label and the same
    joined names. When no slot is truthy the renditions are exactly those of the
    submission with all slots cleared, and the representative actorless
    rendition contains no cast line in either rendition. -/
theorem c7_cast_line :
    (∀ (d : SubmissionData) (now : PyDateTime) (out : String × String × String),
      generateSubmissionConfirmationEmail d now = some out →
      pyTruthy d.title = true → actorsList d ≠ [] →
      StrContains out.2.2 ("Cast Recommendations: " ++ joinCommaSpace (actorsList d)) ∧
      StrContains out.2.1 "Cast Recommendations" ∧
      StrContains out.2.1 (joinCommaSpace (actorsList d))) ∧
    (∀ (d : SubmissionData) (now : PyDateTime), actorsList d = [] →
      generateSubmissionConfirmationEmail d now =
        generateSubmissionConfirmationEmail (clearActors d) now) ∧
    (∃ out, generateSubmissionConfirmationEmail oceanSub year2025 = some out ∧
      ¬ StrContains out.2.1 "Cast Recommendations" ∧
      ¬ StrContains out.2.2 "Cast Recommendations") := by
  refine ⟨?_, render_actors_none, ⟨_, render_ocean, ocean_html_no_cast, ocean_plain_no_cast⟩⟩
  intro d now out hout ht hne
  unfold generateSubmissionConfirmationEmail at hout
  cases hfn : firstName d.contact_name with
  | none => rw [hfn] at hout; cases hout
  | some fn =>
    rw [hfn] at hout
    cases hout
    have ha : actorsStr d = some (joinCommaSpace (actorsList d)) := by
      simp [actorsStr, hne]
    have hat : pyTruthy (some (joinCommaSpace (actorsList d))) = true := by
      simp only [pyTruthy, decide_eq_true_eq]
      cases hl : actorsList d with
      | nil => exact absurd hl hne
      | cons w ws =>
        refine joinCommaSpace_ne_empty w ws (mem_actorsList_ne_empty d w ?_)
        rw [hl]
        exact List.mem_cons_self _ _
    refine ⟨?_, htmlBody_contains_cast_label _ _ ht ha hat,
      htmlBody_contains_cast_value _ _ ht ha hat⟩
    have heq : ("Cast Recommendations: " : String) ++ joinCommaSpace (actorsList d) =
        "Cast Recommendations" ++ (": " ++ joinCommaSpace (actorsList d)) := by
      rw [← String.append_assoc]
      congr 1
    rw [heq]
    exact plainBody_contains_cast _ _ ht ha hat

/-- The Ocean submission with two cast recommendations in slots 1 and 3, and
    its template data. -/
def castSub : SubmissionData :=
  { oceanSub with actor_1 := some "Alice Smith", actor_3 := some "Bo Li" }

def tdCast : TemplateData := { tdOcean with actors_str := actorsStr castSub }

/-- C7 witness: two filled slots render as one comma-joined cast line, in slot
    order and skipping the empty slots. -/
theorem c7_cast_line_witness :
    StrContains (plainBody tdCast)
      ("Cast Recommendations: " ++ joinCommaSpace (actorsList castSub)) ∧
    StrContains (htmlBody tdCast) "Cast Recommendations" ∧
    StrContains (htmlBody tdCast) (joinCommaSpace (actorsList castSub)) :=
  c7_cast_line.1 castSub year2025
    (subjectLine castSub.title, htmlBody tdCast, plainBody tdCast) rfl (by decide) (by decide)

/-- C7 counterexample: a non-empty actor slot whose submission has no title
    yields renditions with no Cast Recommendations line at all -- the claim that
    the cast line always lists the non-empty names fails. -/
theorem c7_counterexample :
    actorsList aliceSub = ["Alice Smith"] ∧
    (∃ out, generateSubmissionConfirmationEmail aliceSub year2025 = some out ∧
      ¬ StrContains out.2.2 "Cast Recommendations" ∧
      ¬ StrContains out.2.1 "Cast Recommendations") := by
  refine ⟨by decide, ⟨(subjectLine none, htmlBody tdAlice, plainBody tdAlice), rfl, ?_, ?_⟩⟩
  · rw [← strContainsB_false_iff, strContainsB, alice_plain_data, ← containsChunks_spec]
    decide
  · rw [← strContainsB_false_iff, strContainsB, alice_html_data, ← containsChunks_spec]
    decide

/-- C10 (amended): the greeting name. A falsy contact name falls back to there;
    a truthy one is split on whitespace and the first token used; a truthy but
    all-whitespace name makes the renderer raise, producing no email at all; and
    whenever an email is produced, both renditions carry the greeting line with
    a non-empty name. -/
theorem c10_greeting_name (d : SubmissionData) (now : PyDateTime) :
    (pyTruthy d.contact_name = false → firstName d.contact_name = some "there") ∧
    (∀ w ws, pyTruthy d.contact_name = true →
      pySplitWs (d.contact_name.getD "") = w :: ws → firstName d.contact_name = some w) ∧
    (pyTruthy d.contact_name = true → pySplitWs (d.contact_name.getD "") = [] →
      generateSubmissionConfirmationEmail d now = none) ∧
    (∀ out, generateSubmissionConfirmationEmail d now = some out →
      ∃ fn, firstName d.contact_name = some fn ∧ fn ≠ "" ∧
        StrContains out.2.1 ("Hello " ++ (fn ++ ",")) ∧
        StrContains out.2.2 ("Hello " ++ (fn ++ ","))) := by
  refine ⟨fun hf => ?_, fun w ws ht hsp => ?_, fun ht hsp => ?_, fun out hout => ?_⟩
  · simp [firstName, hf]
  · simp [firstName, ht, hsp]
  · unfold generateSubmissionConfirmationEmail
    simp [firstName, ht, hsp]
  · unfold generateSubmissionConfirmationEmail at hout
    cases hfn : firstName d.contact_name with
    | none => rw [hfn] at hout; cases hout
    | some fn =>
      rw [hfn] at hout
      cases hout
      exact ⟨fn, rfl, firstName_ne_empty _ _ hfn,
        htmlBody_contains_greeting _, plainBody_contains_greeting _⟩

/-- C10 witness: the Jane Doe submission greets Jane in both renditions. -/
theorem c10_greeting_name_witness :
    ∃ fn, firstName oceanSub.contact_name = some fn ∧ fn ≠ "" ∧
      StrContains (htmlBody tdOcean) ("Hello " ++ (fn ++ ",")) ∧
      StrContains (plainBody tdOcean) ("Hello " ++ (fn ++ ",")) :=
  (c10_greeting_name oceanSub year2025).2.2.2 _ render_ocean

/-- C10 counterexample: a single-space contact name is truthy, so the fallback
    is not used; splitting it yields no token, the index raises, and no email is
    produced -- the greeting line is not always present. -/
theorem c10_counterexample :
    pyTruthy (some " ") = true ∧ firstName (some " ") = none ∧
    generateSubmissionConfirmationEmail { contact_name := some " " } year2025 = none :=
  ⟨by decide, rfl, rfl⟩
